import Mathlib

/-!
Shallow embedding of the pathtracer example (src/examples/pathtracer/pathtracer.py):
the scene builder (flattened GPU buffers, mesh descriptors, BLAS/TLAS build),
the per-frame render loop of App.main_loop, the Accumulator reset logic, and the
camera mutation performed by PathTracer.execute.

Scalars that are numpy/float32 values in the source are modelled as exact
rationals; primitive math-library calls (sqrt, tan, radians) are abstracted as
parameters since their float behaviour is external to this program.
-/

namespace PathTracerSpec

/-- A 4x4 matrix, stored as a list of rows (the source stores spy.float4x4
values; only their row structure matters for the claims). -/
abbrev Mat4 := List (List ℚ)

/-- Conversion spy.float3x4 applied to a 4x4 matrix in build_tlas: the top
three rows (the affine part, dropping the constant homogeneous row). -/
def float3x4Of (m : Mat4) : Mat4 := m.take 3

/-- Mesh: an ordered sequence of vertex records (each a row of 8 float32
scalars: position, normal, uv) and an ordered sequence of triangle index
triples, as in the Mesh class. -/
structure Mesh where
  vertices : List (List ℚ)
  indices : List (Nat × Nat × Nat)
  deriving Repr, DecidableEq

/-- Mesh.vertex_count: vertices.shape[0]. -/
def Mesh.vertexCount (m : Mesh) : Nat := m.vertices.length

/-- Mesh.triangle_count: indices.shape[0]. -/
def Mesh.triangleCount (m : Mesh) : Nat := m.indices.length

/-- Mesh.index_count: triangle_count * 3. -/
def Mesh.indexCount (m : Mesh) : Nat := m.triangleCount * 3

/-- Scale row entries at positions 0 and 2 by sx and sz respectively
(the numpy slice assignment in Mesh.create_quad). -/
def scaleXZ (sx sz : ℚ) (row : List ℚ) : List ℚ :=
  match row with
  | x :: y :: z :: rest => x * sx :: y :: z * sz :: rest
  | other => other

/-- Scale row entries at positions 0, 1 and 2 (the numpy slice assignment in
Mesh.create_cube). -/
def scaleXYZ (sx sy sz : ℚ) (row : List ℚ) : List ℚ :=
  match row with
  | x :: y :: z :: rest => x * sx :: y * sy :: z * sz :: rest
  | other => other

/-- Mesh.create_quad: 4 vertices (position, normal, uv), 2 triangles, with
the x and z coordinates scaled by the size parameter. -/
def Mesh.createQuad (size : ℚ × ℚ) : Mesh :=
  { vertices :=
      [[-1/2, 0, -1/2, 0, 1, 0, 0, 0],
       [1/2, 0, -1/2, 0, 1, 0, 1, 0],
       [-1/2, 0, 1/2, 0, 1, 0, 0, 1],
       [1/2, 0, 1/2, 0, 1, 0, 1, 1]].map (scaleXZ size.1 size.2)
    indices := [(2, 1, 0), (1, 2, 3)] }

/-- Mesh.create_cube: 24 vertices (4 per face), 12 triangles, with the
position coordinates scaled by the size parameter. -/
def Mesh.createCube (size : ℚ × ℚ × ℚ) : Mesh :=
  { vertices :=
      [[-1/2, -1/2, -1/2, 0, -1, 0, 0, 0],
       [-1/2, -1/2, 1/2, 0, -1, 0, 1, 0],
       [1/2, -1/2, 1/2, 0, -1, 0, 1, 1],
       [1/2, -1/2, -1/2, 0, -1, 0, 0, 1],
       [-1/2, 1/2, 1/2, 0, 1, 0, 0, 0],
       [-1/2, 1/2, -1/2, 0, 1, 0, 1, 0],
       [1/2, 1/2, -1/2, 0, 1, 0, 1, 1],
       [1/2, 1/2, 1/2, 0, 1, 0, 0, 1],
       [-1/2, 1/2, -1/2, 0, 0, -1, 0, 0],
       [-1/2, -1/2, -1/2, 0, 0, -1, 1, 0],
       [1/2, -1/2, -1/2, 0, 0, -1, 1, 1],
       [1/2, 1/2, -1/2, 0, 0, -1, 0, 1],
       [1/2, 1/2, 1/2, 0, 0, 1, 0, 0],
       [1/2, -1/2, 1/2, 0, 0, 1, 1, 0],
       [-1/2, -1/2, 1/2, 0, 0, 1, 1, 1],
       [-1/2, 1/2, 1/2, 0, 0, 1, 0, 1],
       [-1/2, 1/2, 1/2, -1, 0, 0, 0, 0],
       [-1/2, -1/2, 1/2, -1, 0, 0, 1, 0],
       [-1/2, -1/2, -1/2, -1, 0, 0, 1, 1],
       [-1/2, 1/2, -1/2, -1, 0, 0, 0, 1],
       [1/2, 1/2, -1/2, 1, 0, 0, 0, 0],
       [1/2, -1/2, -1/2, 1, 0, 0, 1, 0],
       [1/2, -1/2, 1/2, 1, 0, 0, 1, 1],
       [1/2, 1/2, 1/2, 1, 0, 0, 0, 1]].map (scaleXYZ size.1 size.2.1 size.2.2)
    indices :=
      [(0, 2, 1), (0, 3, 2), (4, 6, 5), (4, 7, 6), (8, 10, 9), (8, 11, 10),
       (12, 14, 13), (12, 15, 14), (16, 18, 17), (16, 19, 18),
       (20, 22, 21), (20, 23, 22)] }

/-- Stage: the scene source. Materials are kept as their base colors,
transforms as the 4x4 matrix held in Transform.matrix, instances as
(mesh_id, material_id, transform_id) triples, as appended by add_material,
add_mesh, add_transform and add_instance. -/
structure Stage where
  materials : List (ℚ × ℚ × ℚ)
  meshes : List Mesh
  transforms : List Mat4
  instances : List (Nat × Nat × Nat)
  deriving Repr, DecidableEq

/-- Scene.MeshDesc: per-mesh record with counts and cumulative offsets. -/
structure MeshDesc where
  vertex_count : Nat
  index_count : Nat
  vertex_offset : Nat
  index_offset : Nat
  deriving Repr, DecidableEq

/-- Scene.InstanceDesc. -/
structure InstanceDesc where
  mesh_id : Nat
  material_id : Nat
  transform_id : Nat
  deriving Repr, DecidableEq

/-- The BLAS build input assembled by Scene.build_blas: a vertex sub-range of
the shared vertex buffer (byte offset vertex_offset * 32, stride 32) and an
index sub-range of the shared index buffer (byte offset index_offset * 4),
with the geometry flagged opaque. -/
structure Blas where
  vertexBufferByteOffset : Nat
  vertexCount : Nat
  vertexStride : Nat
  indexBufferByteOffset : Nat
  indexCount : Nat
  opaq : Bool
  deriving Repr, DecidableEq

/-- The record written by instance_list.write in Scene.build_tlas for one
instance. The acceleration-structure handle is modelled as the BLAS value
fetched from the BLAS list at the mesh id. -/
structure TlasRecord where
  transform : Mat4
  instance_id : Nat
  instance_mask : Nat
  instance_contribution_to_hit_group_index : Nat
  flagsNone : Bool
  blas : Blas
  deriving Repr, DecidableEq

/-- Events observable during Scene construction: command-buffer submissions
of acceleration-structure builds, TLAS instance-record writes, and blocking
device waits (device.wait() is never called inside Scene, only by App at
resize and shutdown, so scene construction never emits a wait). -/
inductive Ev where
  | submitBlasBuild (meshIndex : Nat)
  | writeInstance (instanceId : Nat)
  | submitTlasBuild
  | deviceWait
  deriving Repr, DecidableEq

/-- The forward scan in Scene constructor lines 377-391: one MeshDesc per
mesh, offsets accumulating the preceding vertex and index counts. -/
def buildMeshDescs : List Mesh → Nat → Nat → List MeshDesc
  | [], _, _ => []
  | m :: rest, v, i =>
      { vertex_count := m.vertexCount, index_count := m.indexCount,
        vertex_offset := v, index_offset := i }
        :: buildMeshDescs rest (v + m.vertexCount) (i + m.indexCount)

/-- Scene.build_blas, restricted to the build input it assembles from a mesh
descriptor over the shared buffers. -/
def buildBlas (d : MeshDesc) : Blas :=
  { vertexBufferByteOffset := d.vertex_offset * 32
    vertexCount := d.vertex_count
    vertexStride := 32
    indexBufferByteOffset := d.index_offset * 4
    indexCount := d.index_count
    opaq := true }

/-- The instance-record loop of Scene.build_tlas: looks up the transform by
transform_id and the BLAS by mesh_id (a Python list lookup, raising an index
error when out of range, modelled as failure), and writes one record per
instance with instance_id equal to the loop index and mask 0xFF. Returns the
write events that happened before a failure. -/
def writeRecords (transforms : List Mat4) (blases : List Blas) :
    List InstanceDesc → Nat → List Ev × Option (List TlasRecord)
  | [], _ => ([], some [])
  | d :: rest, i =>
      match transforms[d.transform_id]?, blases[d.mesh_id]? with
      | some m, some b =>
          let r : TlasRecord :=
            { transform := float3x4Of m, instance_id := i, instance_mask := 0xFF,
              instance_contribution_to_hit_group_index := 0, flagsNone := true,
              blas := b }
          let out := writeRecords transforms blases rest (i + 1)
          (Ev.writeInstance i :: out.1, out.2.map (r :: ·))
      | _, _ => ([], none)

/-- The flattened Scene, as built by the Scene constructor. -/
structure Scene where
  material_descs : List (ℚ × ℚ × ℚ)
  mesh_descs : List MeshDesc
  instance_descs : List InstanceDesc
  vertexBuffer : List (List ℚ)
  indexBuffer : List (Nat × Nat × Nat)
  transforms : List Mat4
  blases : List Blas
  tlasRecords : List TlasRecord
  deriving Repr, DecidableEq

/-- The result of running the Scene constructor: the ordered submission and
write events it emitted, and the scene when construction did not raise. -/
structure BuildOut where
  events : List Ev
  scene : Option Scene

/-- Instance descriptor list of the Scene constructor (lines 394-396), one
per stage instance, in order. -/
def sceneInstanceDescs (stage : Stage) : List InstanceDesc :=
  stage.instances.map fun t =>
    { mesh_id := t.1, material_id := t.2.1, transform_id := t.2.2 }

/-- BLAS list of the Scene constructor (line 451): one build per mesh
descriptor, in mesh order. -/
def sceneBlases (stage : Stage) : List Blas :=
  (buildMeshDescs stage.meshes 0 0).map buildBlas

/-- The TLAS record-writing loop of build_tlas applied to the scene data:
transform list, BLAS list and instance descriptors, starting at id 0. -/
def sceneWrite (stage : Stage) : List Ev × Option (List TlasRecord) :=
  writeRecords stage.transforms (sceneBlases stage) (sceneInstanceDescs stage) 0

/-- Scene constructor (lines 360-454) followed by build_blas per mesh
descriptor and build_tlas. Two pure failure paths precede the
acceleration-structure builds: with an empty mesh list, np.concatenate of no
arrays raises at line 399, and with an empty transform list, np.stack of no
arrays raises at line 442; both happen before any BLAS build is submitted,
so they yield an empty event stream. Otherwise the constructor produces the
descriptor lists and concatenated vertex and index buffers, submits one BLAS
build per mesh, then writes the per-instance TLAS records (the only place
any instance id is looked up; no id validation happens anywhere) and submits
the TLAS build. -/
def sceneBuild (stage : Stage) : BuildOut :=
  if stage.meshes = [] then { events := [], scene := none }
  else if stage.transforms = [] then { events := [], scene := none }
  else
    let blasEvents := (List.range (sceneBlases stage).length).map Ev.submitBlasBuild
    let written := sceneWrite stage
    match written.2 with
    | some recs =>
        { events := blasEvents ++ written.1 ++ [Ev.submitTlasBuild]
          scene := some
            { material_descs := stage.materials
              mesh_descs := buildMeshDescs stage.meshes 0 0
              instance_descs := sceneInstanceDescs stage
              vertexBuffer := stage.meshes.flatMap Mesh.vertices
              indexBuffer := stage.meshes.flatMap Mesh.indices
              transforms := stage.transforms
              blases := sceneBlases stage
              tlasRecords := recs } }
    | none =>
        { events := blasEvents ++ written.1, scene := none }

/-- Total number of scalar indices in the flattened index buffer (each entry
of the buffer is one triangle index triple). -/
def flatIndexCount (indexBuffer : List (Nat × Nat × Nat)) : Nat :=
  indexBuffer.length * 3

/-- Stages on which the constructor exercises no path whose outcome the
embedding cannot settle: at least one material and one instance (so no
zero-size descriptor buffer or zero-size instance list is created, whose
acceptance by the device is unknowable here), every mesh with at least one
vertex and one triangle and the fixed 8-scalar vertex layout (so the
concatenations at lines 399-400 produce consistent, nonzero data), and all
instance ids and buffer totals below 2 to the 32 (struct.pack with formats
III and IIII at lines 343-358 raises on larger values, which would abort
construction before the builds). The theorems asserting construction success
are stated for such stages. -/
def Stage.wellFormed (stage : Stage) : Prop :=
  stage.materials ≠ [] ∧ stage.instances ≠ [] ∧
  (∀ m ∈ stage.meshes, m.vertices ≠ [] ∧ m.indices ≠ [] ∧
    ∀ row ∈ m.vertices, row.length = 8) ∧
  (∀ t ∈ stage.instances, t.1 < 2 ^ 32 ∧ t.2.1 < 2 ^ 32 ∧ t.2.2 < 2 ^ 32) ∧
  (stage.meshes.flatMap Mesh.vertices).length < 2 ^ 32 ∧
  flatIndexCount (stage.meshes.flatMap Mesh.indices) < 2 ^ 32

/-- Well-formedness is checkable on concrete stages. -/
instance (stage : Stage) : Decidable stage.wellFormed := by
  unfold Stage.wellFormed
  infer_instance

/-! ## Frame loop (App.main_loop) and Accumulator.execute -/

/-- The mutable state carried across iterations of App.main_loop: the frame
counter and the dimensions of the allocated textures (none before the first
allocation, mirroring the None initialisation). The three intermediate
textures (output, render, accum) are tracked separately, as is the internal
accumulation texture owned by Accumulator. -/
structure LoopState where
  frame : Nat
  outputDims : Option (Nat × Nat)
  renderDims : Option (Nat × Nat)
  accumTexDims : Option (Nat × Nat)
  accumulatorDims : Option (Nat × Nat)
  deriving Repr, DecidableEq

/-- Per-iteration inputs of the loop: the boolean returned by
camera_controller.update (true when a move or rotate delta was applied this
frame) and the acquired surface image dimensions (none when the surface is
unconfigured or acquisition fails, in which case the loop body is skipped). -/
structure FrameInput where
  cameraChanged : Bool
  surface : Option (Nat × Nat)
  deriving Repr, DecidableEq

/-- What a rendered frame did: whether the three intermediate textures were
recreated, at which dimensions, the frame index passed to
PathTracer.execute, the input dimensions and reset flag passed to
Accumulator.execute, and whether the Accumulator recreated its internal
accumulation texture. -/
structure FrameRecord where
  reallocated : Bool
  dims : Nat × Nat
  traceFrame : Nat
  accumInputDims : Nat × Nat
  resetFlag : Bool
  accumulatorReallocated : Bool
  deriving Repr, DecidableEq

/-- Accumulator.execute, lines 629-640: the internal accumulation texture is
recreated whenever it is absent or its dimensions differ from the input
texture; returns the new texture dimensions and whether it was recreated.
The reset flag is passed through to the kernel unchanged. -/
def accumulatorExecute (accumDims : Option (Nat × Nat)) (inputDims : Nat × Nat) :
    Option (Nat × Nat) × Bool :=
  if accumDims = some inputDims then (accumDims, false) else (some inputDims, true)

/-- One iteration of App.main_loop (lines 743-799): the camera update runs
first and zeroes the frame counter on change; if no surface image is
available the iteration is skipped; otherwise the three intermediate
textures are recreated when the output texture is absent or its dimensions
differ from the surface image, then the trace, accumulate (input is the
render texture, reset is frame == 0) and tone-map passes run and the frame
counter is incremented. -/
def loopStep (s : LoopState) (inp : FrameInput) : LoopState × Option FrameRecord :=
  let frame1 := if inp.cameraChanged then 0 else s.frame
  match inp.surface with
  | none => ({ s with frame := frame1 }, none)
  | some d =>
      let realloc : Bool := decide (s.outputDims ≠ some d)
      let outputDims := if realloc then some d else s.outputDims
      let renderDims := if realloc then some d else s.renderDims
      let accumTexDims := if realloc then some d else s.accumTexDims
      let inputDims := renderDims.getD d
      let acc := accumulatorExecute s.accumulatorDims inputDims
      ({ frame := frame1 + 1, outputDims := outputDims, renderDims := renderDims,
         accumTexDims := accumTexDims, accumulatorDims := acc.1 },
       some { reallocated := realloc, dims := d, traceFrame := frame1,
              accumInputDims := inputDims, resetFlag := decide (frame1 = 0),
              accumulatorReallocated := acc.2 })

/-- The state at the top of App.main_loop: frame counter 0, no textures
allocated yet. -/
def initialState : LoopState :=
  { frame := 0, outputDims := none, renderDims := none, accumTexDims := none,
    accumulatorDims := none }

/-! ## Camera and PathTracer.execute -/

/-- A 3-component vector of scalars. -/
abbrev Vec3 := ℚ × ℚ × ℚ

/-- The primitive math-library calls used by Camera.recompute (spy.math).
Their float behaviour is external to this program, so they are parameters of
the embedding. -/
structure MathOps where
  sqrt : ℚ → ℚ
  tan : ℚ → ℚ
  radians : ℚ → ℚ

/-- Componentwise vector subtraction. -/
def vsub (a b : Vec3) : Vec3 := (a.1 - b.1, a.2.1 - b.2.1, a.2.2 - b.2.2)

/-- Cross product. -/
def vcross (a b : Vec3) : Vec3 :=
  (a.2.1 * b.2.2 - a.2.2 * b.2.1,
   a.2.2 * b.1 - a.1 * b.2.2,
   a.1 * b.2.1 - a.2.1 * b.1)

/-- Dot product. -/
def vdot (a b : Vec3) : ℚ := a.1 * b.1 + a.2.1 * b.2.1 + a.2.2 * b.2.2

/-- Scalar multiple. -/
def vsmul (c : ℚ) (a : Vec3) : Vec3 := (c * a.1, c * a.2.1, c * a.2.2)

/-- spy.math.normalize: divide a vector by its length, the square root of
its squared norm. -/
def vnormalize (ops : MathOps) (a : Vec3) : Vec3 :=
  let len := ops.sqrt (vdot a a)
  (a.1 / len, a.2.1 / len, a.2.2 / len)

/-- The Camera object: extent, pose inputs, and the derived quantities
written by recompute. -/
structure Camera where
  width : Nat
  height : Nat
  aspect : ℚ
  position : Vec3
  target : Vec3
  up : Vec3
  fov : ℚ
  fwd : Vec3
  right : Vec3
  image_u : Vec3
  image_v : Vec3
  image_w : Vec3
  deriving Repr, DecidableEq

/-- Camera.recompute (lines 28-39): recomputes the aspect ratio from width
and height, then the orthonormal basis fwd, right, up (the cross with the
old up, then the corrected up) and the image-plane vectors. -/
def Camera.recompute (ops : MathOps) (c : Camera) : Camera :=
  let aspect := (c.width : ℚ) / (c.height : ℚ)
  let fwd := vnormalize ops (vsub c.target c.position)
  let right := vnormalize ops (vcross fwd c.up)
  let up := vnormalize ops (vcross right fwd)
  let fovr := ops.radians c.fov
  { c with
    aspect := aspect, fwd := fwd, right := right, up := up,
    image_u := vsmul (ops.tan (fovr * (1 / 2)) * aspect) right,
    image_v := vsmul (ops.tan (fovr * (1 / 2))) up,
    image_w := fwd }

/-- The arguments of the ray-tracing dispatch issued by PathTracer.execute:
the camera state bound through Scene.bind at dispatch time, the bound frame
index, and the dispatch extent. -/
structure TraceDispatch where
  boundCamera : Camera
  boundFrame : Nat
  extentW : Nat
  extentH : Nat
  deriving Repr, DecidableEq

/-- PathTracer.execute (lines 588-603): writes the output extent into the
shared Scene camera, calls recompute, then dispatches over width x height
with the mutated camera bound. Returns the camera state after the call
together with the dispatch it issued. -/
def pathTracerExecute (ops : MathOps) (cam : Camera) (w h frame : Nat) :
    Camera × TraceDispatch :=
  let cam2 := Camera.recompute ops { cam with width := w, height := h }
  (cam2, { boundCamera := cam2, boundFrame := frame, extentW := w, extentH := h })

/-- Trivial (everywhere zero) instantiation of the primitive math calls,
used only to evaluate the model at concrete inputs. -/
def zeroOps : MathOps := { sqrt := fun _ => 0, tan := fun _ => 0, radians := fun _ => 0 }

/-- The field values set by Camera.__init__ before its recompute call. -/
def initCamera : Camera :=
  { width := 100, height := 100, aspect := 1, position := (1, 1, 1),
    target := (0, 0, 0), up := (0, 1, 0), fov := 70, fwd := (0, 0, 0),
    right := (0, 0, 0), image_u := (0, 0, 0), image_v := (0, 0, 0),
    image_w := (0, 0, 0) }

/-! ## Concrete scenario: one quad and one cube, one instance of each -/

/-- The identity 4x4 matrix (spy.float4x4.identity, the transform of a
default Transform). -/
def idMat4 : Mat4 :=
  [[1, 0, 0, 0], [0, 1, 0, 0], [0, 0, 1, 0], [0, 0, 0, 1]]

/-- A stage holding one unit quad mesh and one unit cube mesh, one material,
one identity transform, and one instance of each mesh. -/
def stageQuadCube : Stage :=
  { materials := [(1 / 2, 1 / 2, 1 / 2)]
    meshes := [Mesh.createQuad (1, 1), Mesh.createCube (1, 1, 1)]
    transforms := [idMat4]
    instances := [(0, 0, 0), (1, 0, 0)] }

/-- A stage whose single instance has material id 5 although only one
material (id 0) exists, with mesh id and transform id in range and nothing
degenerate: no zero-size buffer is involved. -/
def stageBadMaterial : Stage :=
  { materials := [(1 / 2, 1 / 2, 1 / 2)]
    meshes := [Mesh.createQuad (1, 1)]
    transforms := [idMat4]
    instances := [(0, 5, 0)] }

/-! ## Lemmas about the mesh-descriptor scan -/

/-- The scan produces one descriptor per mesh. -/
lemma buildMeshDescs_length (ms : List Mesh) (v i : Nat) :
    (buildMeshDescs ms v i).length = ms.length := by
  induction ms generalizing v i with
  | nil => simp [buildMeshDescs]
  | cons m rest ih => simp [buildMeshDescs, ih]

/-- Characterisation of the scan: the descriptor at position k carries the
counts of the k-th mesh and offsets equal to the accumulator plus the prefix
sums of the preceding meshes. -/
lemma buildMeshDescs_getElem (ms : List Mesh) (v i k : Nat) :
    (buildMeshDescs ms v i)[k]? = ms[k]?.map fun m =>
      { vertex_count := m.vertexCount, index_count := m.indexCount,
        vertex_offset := v + ((ms.take k).map Mesh.vertexCount).sum,
        index_offset := i + ((ms.take k).map Mesh.indexCount).sum } := by
  induction ms generalizing v i k with
  | nil => simp [buildMeshDescs]
  | cons m rest ih =>
      cases k with
      | zero => simp [buildMeshDescs]
      | succ k =>
          simp only [buildMeshDescs, List.getElem?_cons_succ, ih,
            List.take_succ_cons, List.map_cons, List.sum_cons]
          cases rest[k]? with
          | none => rfl
          | some mm => simp [Nat.add_assoc]

/-- The vertex counts recorded by the scan sum to the length of the
concatenated vertex buffer. -/
lemma buildMeshDescs_sum_vertex (ms : List Mesh) (v i : Nat) :
    ((buildMeshDescs ms v i).map MeshDesc.vertex_count).sum =
      (ms.flatMap Mesh.vertices).length := by
  induction ms generalizing v i with
  | nil => simp [buildMeshDescs]
  | cons m rest ih => simp [buildMeshDescs, ih, Mesh.vertexCount]

/-- The index counts recorded by the scan sum to three times the number of
triangle triples in the concatenated index buffer. -/
lemma buildMeshDescs_sum_index (ms : List Mesh) (v i : Nat) :
    ((buildMeshDescs ms v i).map MeshDesc.index_count).sum =
      (ms.flatMap Mesh.indices).length * 3 := by
  induction ms generalizing v i with
  | nil => simp [buildMeshDescs]
  | cons m rest ih =>
      simp [buildMeshDescs, ih, Mesh.indexCount, Mesh.triangleCount,
        Nat.add_mul]

/-- A prefix sum plus the element it stops at is at most the total sum. -/
lemma sum_take_getElem_le (l : List Nat) (k x : Nat) (h : l[k]? = some x) :
    (l.take k).sum + x ≤ l.sum := by
  induction l generalizing k with
  | nil => simp at h
  | cons a rest ih =>
      cases k with
      | zero =>
          simp only [List.getElem?_cons_zero, Option.some_inj] at h
          simp [h]
      | succ k =>
          simp only [List.getElem?_cons_succ] at h
          have := ih k h
          simp only [List.take_succ_cons, List.sum_cons]
          omega

/-! ## Lemmas about the TLAS record loop and the scene constructor -/

/-- The record loop succeeds exactly when every instance transform id and
mesh id are in range of the transform list and BLAS list respectively; the
material id is never looked up. -/
lemma writeRecords_isSome (T : List Mat4) (B : List Blas) (ds : List InstanceDesc)
    (i : Nat) :
    (writeRecords T B ds i).2.isSome = true ↔
      ∀ d ∈ ds, d.transform_id < T.length ∧ d.mesh_id < B.length := by
  induction ds generalizing i with
  | nil => simp [writeRecords]
  | cons d rest ih =>
      cases hT : T[d.transform_id]? with
      | none =>
          have hlen : ¬ d.transform_id < T.length := by
            simpa using List.getElem?_eq_none_iff.mp hT
          simp only [writeRecords, hT]
          cases hB : B[d.mesh_id]? <;> simp [hlen]
      | some m =>
          have hlenT : d.transform_id < T.length := by
            rcases List.getElem?_eq_some_iff.mp hT with ⟨hl, _⟩
            exact hl
          cases hB : B[d.mesh_id]? with
          | none =>
              have hlen : ¬ d.mesh_id < B.length := by
                simpa using List.getElem?_eq_none_iff.mp hB
              simp [writeRecords, hT, hB, hlen]
          | some b =>
              have hlenB : d.mesh_id < B.length := by
                rcases List.getElem?_eq_some_iff.mp hB with ⟨hl, _⟩
                exact hl
              simp [writeRecords, hT, hB, ih, hlenT, hlenB]

/-- On success the record loop emits one write event per instance, in
instance order starting from the initial id, and produces as many records as
instances. -/
lemma writeRecords_events (T : List Mat4) (B : List Blas) (ds : List InstanceDesc)
    (i : Nat) (recs : List TlasRecord)
    (h : (writeRecords T B ds i).2 = some recs) :
    (writeRecords T B ds i).1 = (List.range' i ds.length).map Ev.writeInstance ∧
      recs.length = ds.length := by
  induction ds generalizing i recs with
  | nil =>
      simp only [writeRecords, Option.some_inj] at h
      subst h
      simp [writeRecords]
  | cons d rest ih =>
      cases hT : T[d.transform_id]? with
      | none => simp [writeRecords, hT] at h
      | some m =>
          cases hB : B[d.mesh_id]? with
          | none => simp [writeRecords, hT, hB] at h
          | some b =>
              simp only [writeRecords, hT, hB] at h ⊢
              rcases Option.map_eq_some'.mp h with ⟨recs0, hr0, hrev⟩
              rcases ih (i + 1) recs0 hr0 with ⟨hev, hlen⟩
              subst hrev
              simp [hev, hlen, List.range'_succ]

/-- On success the record at position k is built from the transform looked
up by the instance transform id and the BLAS looked up by its mesh id,
with instance id equal to the starting id plus k and mask 0xFF. -/
lemma writeRecords_getElem (T : List Mat4) (B : List Blas) (ds : List InstanceDesc)
    (i : Nat) (recs : List TlasRecord)
    (h : (writeRecords T B ds i).2 = some recs)
    (k : Nat) (d : InstanceDesc) (hd : ds[k]? = some d) :
    ∃ m b, T[d.transform_id]? = some m ∧ B[d.mesh_id]? = some b ∧
      recs[k]? = some
        { transform := float3x4Of m, instance_id := i + k, instance_mask := 0xFF,
          instance_contribution_to_hit_group_index := 0, flagsNone := true,
          blas := b } := by
  induction ds generalizing i recs k with
  | nil => simp at hd
  | cons d0 rest ih =>
      cases hT : T[d0.transform_id]? with
      | none => simp [writeRecords, hT] at h
      | some m =>
          cases hB : B[d0.mesh_id]? with
          | none => simp [writeRecords, hT, hB] at h
          | some b =>
              simp only [writeRecords, hT, hB] at h
              rcases Option.map_eq_some'.mp h with ⟨recs0, hr0, hrev⟩
              subst hrev
              cases k with
              | zero =>
                  simp only [List.getElem?_cons_zero, Option.some_inj] at hd
                  subst hd
                  exact ⟨m, b, hT, hB, by simp⟩
              | succ k =>
                  simp only [List.getElem?_cons_succ] at hd
                  rcases ih (i + 1) recs0 hr0 k hd with ⟨m1, b1, h1, h2, h3⟩
                  refine ⟨m1, b1, h1, h2, ?_⟩
                  simpa [Nat.add_assoc, Nat.add_comm 1 k] using h3

/-- Unfolding of a successful scene construction: the mesh and transform
lists were nonempty (the concatenation and stacking paths did not raise),
every field of the built scene in terms of the stage, and the success of
the record loop. -/
lemma sceneBuild_some (stage : Stage) (sc : Scene)
    (h : (sceneBuild stage).scene = some sc) :
    sc.material_descs = stage.materials ∧
    sc.mesh_descs = buildMeshDescs stage.meshes 0 0 ∧
    sc.instance_descs = sceneInstanceDescs stage ∧
    sc.vertexBuffer = stage.meshes.flatMap Mesh.vertices ∧
    sc.indexBuffer = stage.meshes.flatMap Mesh.indices ∧
    sc.transforms = stage.transforms ∧
    sc.blases = sceneBlases stage ∧
    (sceneWrite stage).2 = some sc.tlasRecords ∧
    stage.meshes ≠ [] ∧ stage.transforms ≠ [] := by
  unfold sceneBuild at h
  by_cases hm : stage.meshes = []
  · simp [hm] at h
  by_cases ht : stage.transforms = []
  · simp [hm, ht] at h
  rw [if_neg hm, if_neg ht] at h
  rcases hw : (sceneWrite stage).2 with _ | recs
  · simp only [hw] at h
    simp at h
  · simp only [hw] at h
    have h2 : ({ material_descs := stage.materials
                 mesh_descs := buildMeshDescs stage.meshes 0 0
                 instance_descs := sceneInstanceDescs stage
                 vertexBuffer := stage.meshes.flatMap Mesh.vertices
                 indexBuffer := stage.meshes.flatMap Mesh.indices
                 transforms := stage.transforms
                 blases := sceneBlases stage
                 tlasRecords := recs } : Scene) = sc := by
      simpa using h
    subst h2
    exact ⟨rfl, rfl, rfl, rfl, rfl, rfl, rfl, rfl, hm, ht⟩

/-- Mesh vertex counts sum to the concatenated vertex buffer length. -/
lemma sum_map_vertexCount (ms : List Mesh) :
    (ms.map Mesh.vertexCount).sum = (ms.flatMap Mesh.vertices).length := by
  induction ms with
  | nil => simp
  | cons m rest ih => simp [ih, Mesh.vertexCount]

/-- Mesh index counts sum to three times the number of triangle triples in
the concatenated index buffer. -/
lemma sum_map_indexCount (ms : List Mesh) :
    (ms.map Mesh.indexCount).sum = (ms.flatMap Mesh.indices).length * 3 := by
  induction ms with
  | nil => simp
  | cons m rest ih =>
      simp [ih, Mesh.indexCount, Mesh.triangleCount, Nat.add_mul]

/-- Scene construction succeeds exactly when the mesh and transform lists
are nonempty (otherwise the concatenation or stacking raises first) and the
TLAS record loop succeeds. -/
lemma sceneBuild_isSome (stage : Stage) :
    (sceneBuild stage).scene.isSome = true ↔
      stage.meshes ≠ [] ∧ stage.transforms ≠ [] ∧
        (sceneWrite stage).2.isSome = true := by
  unfold sceneBuild
  by_cases hm : stage.meshes = []
  · simp [hm]
  by_cases ht : stage.transforms = []
  · simp [hm, ht]
  rw [if_neg hm, if_neg ht]
  rcases hw : (sceneWrite stage).2 with _ | recs <;> simp [hw, hm, ht]

/-- Once the constructor reaches the build stage (nonempty mesh and
transform lists), each mesh contributes one BLAS build submission event,
whether the TLAS record loop then succeeds or fails. -/
lemma sceneBuild_blas_events (stage : Stage) (hm : stage.meshes ≠ [])
    (ht : stage.transforms ≠ []) (k : Nat) (hk : k < stage.meshes.length) :
    Ev.submitBlasBuild k ∈ (sceneBuild stage).events := by
  have hmem : Ev.submitBlasBuild k ∈
      (List.range (sceneBlases stage).length).map Ev.submitBlasBuild := by
    refine List.mem_map.mpr ⟨k, ?_, rfl⟩
    rw [List.mem_range]
    simpa [sceneBlases, buildMeshDescs_length] using hk
  unfold sceneBuild
  rw [if_neg hm, if_neg ht]
  rcases hw : (sceneWrite stage).2 with _ | recs <;> simp only [hw]
  · exact List.mem_append_left _ hmem
  · exact List.mem_append_left _ (List.mem_append_left _ hmem)

/-! ## Claim theorems -/

/-- C4: for every ordered list of input meshes, the scan produces one mesh
descriptor per mesh in list order, whose vertex offset is the sum of the
preceding vertex counts and whose index offset is the sum of the preceding
index counts, the counts being those of the mesh at the same position. -/
theorem claim_C4_offset_scan (meshes : List Mesh) (k : Nat) :
    (buildMeshDescs meshes 0 0).length = meshes.length ∧
    (buildMeshDescs meshes 0 0)[k]? = meshes[k]?.map fun m =>
      { vertex_count := m.vertexCount, index_count := m.indexCount,
        vertex_offset := ((meshes.take k).map Mesh.vertexCount).sum,
        index_offset := ((meshes.take k).map Mesh.indexCount).sum } := by
  refine ⟨buildMeshDescs_length meshes 0 0, ?_⟩
  simpa using buildMeshDescs_getElem meshes 0 0 k

/-- C5: in every successfully built scene, the mesh descriptor vertex counts
sum to the number of vertex records in the flattened vertex buffer, and the
index counts sum to the number of scalar indices in the flattened index
buffer. -/
theorem claim_C5_buffer_totals (stage : Stage) (sc : Scene)
    (h : (sceneBuild stage).scene = some sc) :
    (sc.mesh_descs.map MeshDesc.vertex_count).sum = sc.vertexBuffer.length ∧
    (sc.mesh_descs.map MeshDesc.index_count).sum = flatIndexCount sc.indexBuffer := by
  obtain ⟨-, h2, -, h4, h5, -, -, -, -, -⟩ := sceneBuild_some stage sc h
  constructor
  · rw [h2, h4, buildMeshDescs_sum_vertex]
  · rw [h2, h5, flatIndexCount, buildMeshDescs_sum_index]

/-- The quad-and-cube scene construction succeeds; its result. -/
def sceneQuadCube : Scene := ((sceneBuild stageQuadCube).scene).get (by decide)

/-- The quad-and-cube scene is the successful construction result. -/
lemma sceneQuadCube_eq : (sceneBuild stageQuadCube).scene = some sceneQuadCube :=
  (Option.some_get _).symm

/-- Witness for C5 at the quad-and-cube scene. -/
theorem claim_C5_witness :
    (sceneBuild stageQuadCube).scene = some sceneQuadCube ∧
    ((sceneQuadCube.mesh_descs.map MeshDesc.vertex_count).sum =
        sceneQuadCube.vertexBuffer.length ∧
      (sceneQuadCube.mesh_descs.map MeshDesc.index_count).sum =
        flatIndexCount sceneQuadCube.indexBuffer) :=
  ⟨sceneQuadCube_eq, claim_C5_buffer_totals stageQuadCube sceneQuadCube sceneQuadCube_eq⟩

/-- C8: the BLAS build input of the k-th mesh descriptor addresses the
vertex sub-range of the shared vertex buffer at byte offset
vertex_offset * 32 with stride 32 and vertex_count vertices, the index
sub-range at byte offset index_offset * 4 with index_count indices, marks
the geometry opaque, and both sub-ranges lie inside the shared buffers. -/
theorem claim_C8_blas_inputs (meshes : List Mesh) (k : Nat) (d : MeshDesc)
    (hd : (buildMeshDescs meshes 0 0)[k]? = some d) :
    ((buildMeshDescs meshes 0 0).map buildBlas)[k]? = some
      { vertexBufferByteOffset := d.vertex_offset * 32
        vertexCount := d.vertex_count
        vertexStride := 32
        indexBufferByteOffset := d.index_offset * 4
        indexCount := d.index_count
        opaq := true } ∧
    d.vertex_offset + d.vertex_count ≤ (meshes.flatMap Mesh.vertices).length ∧
    d.index_offset + d.index_count ≤ flatIndexCount (meshes.flatMap Mesh.indices) := by
  refine ⟨by rw [List.getElem?_map, hd]; rfl, ?_, ?_⟩
  · rw [buildMeshDescs_getElem] at hd
    rcases Option.map_eq_some'.mp hd with ⟨m, hm, hrec⟩
    subst hrec
    have hx : (meshes.map Mesh.vertexCount)[k]? = some m.vertexCount := by
      rw [List.getElem?_map, hm]; rfl
    have hle := sum_take_getElem_le (meshes.map Mesh.vertexCount) k m.vertexCount hx
    simp only [Nat.zero_add]
    calc ((meshes.take k).map Mesh.vertexCount).sum + m.vertexCount
        = ((meshes.map Mesh.vertexCount).take k).sum + m.vertexCount := by
          rw [List.map_take]
      _ ≤ (meshes.map Mesh.vertexCount).sum := hle
      _ = (meshes.flatMap Mesh.vertices).length := sum_map_vertexCount meshes
  · rw [buildMeshDescs_getElem] at hd
    rcases Option.map_eq_some'.mp hd with ⟨m, hm, hrec⟩
    subst hrec
    have hx : (meshes.map Mesh.indexCount)[k]? = some m.indexCount := by
      rw [List.getElem?_map, hm]; rfl
    have hle := sum_take_getElem_le (meshes.map Mesh.indexCount) k m.indexCount hx
    simp only [Nat.zero_add]
    calc ((meshes.take k).map Mesh.indexCount).sum + m.indexCount
        = ((meshes.map Mesh.indexCount).take k).sum + m.indexCount := by
          rw [List.map_take]
      _ ≤ (meshes.map Mesh.indexCount).sum := hle
      _ = flatIndexCount (meshes.flatMap Mesh.indices) := by
          rw [flatIndexCount, sum_map_indexCount]

/-- Witness for C8 at the cube descriptor of the quad-and-cube mesh list. -/
theorem claim_C8_witness :
    (buildMeshDescs stageQuadCube.meshes 0 0)[1]? =
      some { vertex_count := 24, index_count := 36, vertex_offset := 4,
             index_offset := 6 } ∧
    (((buildMeshDescs stageQuadCube.meshes 0 0).map buildBlas)[1]? =
        some { vertexBufferByteOffset := 128, vertexCount := 24, vertexStride := 32,
               indexBufferByteOffset := 24, indexCount := 36, opaq := true } ∧
      4 + 24 ≤ (stageQuadCube.meshes.flatMap Mesh.vertices).length ∧
      6 + 36 ≤ flatIndexCount (stageQuadCube.meshes.flatMap Mesh.indices)) := by
  refine ⟨by decide, ?_⟩
  have h := claim_C8_blas_inputs stageQuadCube.meshes 1
    { vertex_count := 24, index_count := 36, vertex_offset := 4, index_offset := 6 }
    (by decide)
  simpa using h

/-- C3 counterexample: the quad-and-cube scene (one quad of 2 triangles and
4 vertices, one cube of 12 triangles and 24 vertices, one instance of each)
has a flattened index buffer of 42 indices, not 90 as the claim states. -/
theorem claim_C3_counterexample :
    ((sceneBuild stageQuadCube).scene.map fun sc => flatIndexCount sc.indexBuffer) =
      some 42 ∧ (42 : Nat) ≠ 90 := by
  constructor
  · decide
  · decide

/-- C3 amended: the quad-and-cube scene has a vertex buffer of 28 vertex
records, a flattened index buffer of 42 indices (14 triangles times 3),
exactly 2 BLAS builds and exactly 2 TLAS instance records. -/
theorem claim_C3_scenario :
    ((sceneBuild stageQuadCube).scene.map fun sc =>
        (sc.vertexBuffer.length, flatIndexCount sc.indexBuffer,
         sc.blases.length, sc.tlasRecords.length)) = some (28, 42, 2, 2) ∧
    (Mesh.createQuad (1, 1)).vertexCount = 4 ∧
    (Mesh.createQuad (1, 1)).triangleCount = 2 ∧
    (Mesh.createCube (1, 1, 1)).vertexCount = 24 ∧
    (Mesh.createCube (1, 1, 1)).triangleCount = 12 := by
  refine ⟨by decide, by decide, by decide, by decide, by decide⟩

/-- C1 counterexample: a well-formed stage whose only instance carries
material id 5 although only material id 0 exists is not rejected; scene
construction succeeds, so an out-of-range material id does not fail
construction at all. -/
theorem claim_C1_counterexample :
    stageBadMaterial.wellFormed ∧
    stageBadMaterial.materials.length ≤ 5 ∧
    (sceneBuild stageBadMaterial).scene.isSome = true := by
  refine ⟨by decide, by decide, by decide⟩

/-- The TLAS record loop over the scene data succeeds exactly when every
instance mesh id and transform id is in range; material ids play no part. -/
lemma sceneWrite_isSome (stage : Stage) :
    (sceneWrite stage).2.isSome = true ↔
      ∀ t ∈ stage.instances,
        t.1 < stage.meshes.length ∧ t.2.2 < stage.transforms.length := by
  unfold sceneWrite
  rw [writeRecords_isSome]
  constructor
  · intro h t ht
    have := h { mesh_id := t.1, material_id := t.2.1, transform_id := t.2.2 }
      (List.mem_map.mpr ⟨t, ht, rfl⟩)
    refine ⟨?_, this.1⟩
    have h2 := this.2
    simpa [sceneBlases, buildMeshDescs_length] using h2
  · intro h d hd
    rcases List.mem_map.mp hd with ⟨t, ht, rfl⟩
    have := h t ht
    refine ⟨this.2, ?_⟩
    simpa [sceneBlases, buildMeshDescs_length] using this.1

/-- C1 amended: scene construction performs no up-front id validation. For
every well-formed stage (nonempty materials and instances, nonempty
fixed-layout meshes, uint32-representable ids and totals, so that no
zero-size buffer or packing overflow path is reached), construction succeeds
exactly when the mesh and transform lists are nonempty and every instance
mesh id and transform id is in range; the material id is never checked. An
empty mesh or transform list fails at buffer packing, before any build;
once the build stage is reached, every BLAS build is submitted regardless
of id validity, so an out-of-range mesh or transform id fails only
afterwards, inside the TLAS record loop. -/
theorem claim_C1_validation (stage : Stage) (_hwf : stage.wellFormed) :
    ((sceneBuild stage).scene.isSome = true ↔
      stage.meshes ≠ [] ∧ stage.transforms ≠ [] ∧
      ∀ t ∈ stage.instances,
        t.1 < stage.meshes.length ∧ t.2.2 < stage.transforms.length) ∧
    (stage.meshes ≠ [] → stage.transforms ≠ [] →
      ∀ k, k < stage.meshes.length →
        Ev.submitBlasBuild k ∈ (sceneBuild stage).events) := by
  refine ⟨?_, fun hm ht k hk => sceneBuild_blas_events stage hm ht k hk⟩
  rw [sceneBuild_isSome, sceneWrite_isSome]

/-- Witness for C1 amended at the well-formed quad-and-cube stage: all ids
in range, so construction succeeds and BLAS 0 was submitted. -/
theorem claim_C1_witness :
    stageQuadCube.wellFormed ∧
    (sceneBuild stageQuadCube).scene.isSome = true ∧
    Ev.submitBlasBuild 0 ∈ (sceneBuild stageQuadCube).events := by
  have hwf : stageQuadCube.wellFormed := by decide
  refine ⟨hwf, ?_, ?_⟩
  · exact (claim_C1_validation stageQuadCube hwf).1.mpr ⟨by decide, by decide, by decide⟩
  · exact (claim_C1_validation stageQuadCube hwf).2 (by decide) (by decide) 0 (by decide)

/-- C7: in every successfully built scene, the TLAS record at position k is
built from the instance descriptor at position k: its transform is the 3x4
truncation of the transform looked up by the transform id, its instance id
equals k, its mask is 0xFF (visible to all ray types), and it references the
BLAS looked up by the mesh id. -/
theorem claim_C7_tlas_records (stage : Stage) (sc : Scene)
    (h : (sceneBuild stage).scene = some sc)
    (k : Nat) (d : InstanceDesc) (hd : sc.instance_descs[k]? = some d) :
    ∃ m b, sc.transforms[d.transform_id]? = some m ∧
      sc.blases[d.mesh_id]? = some b ∧
      sc.tlasRecords[k]? = some
        { transform := float3x4Of m, instance_id := k, instance_mask := 0xFF,
          instance_contribution_to_hit_group_index := 0, flagsNone := true,
          blas := b } := by
  obtain ⟨-, -, h3, -, -, h6, h7, h8, -, -⟩ := sceneBuild_some stage sc h
  rw [h3] at hd
  have h8b : (writeRecords stage.transforms (sceneBlases stage)
      (sceneInstanceDescs stage) 0).2 = some sc.tlasRecords := h8
  rcases writeRecords_getElem stage.transforms (sceneBlases stage)
      (sceneInstanceDescs stage) 0 sc.tlasRecords h8b k d hd with ⟨m, b, h1, h2, hrec⟩
  refine ⟨m, b, ?_, ?_, ?_⟩
  · rw [h6]; exact h1
  · rw [h7]; exact h2
  · simpa using hrec

/-- The mesh descriptor of the cube inside the quad-and-cube scene. -/
def cubeDesc : MeshDesc :=
  { vertex_count := 24, index_count := 36, vertex_offset := 4, index_offset := 6 }

/-- The instance descriptor of the cube instance of the quad-and-cube
scene. -/
def cubeInstDesc : InstanceDesc :=
  { mesh_id := 1, material_id := 0, transform_id := 0 }

/-- Witness for C7 at instance 1 of the quad-and-cube scene: the record
carries the truncated identity transform, instance id 1, mask 0xFF and the
cube BLAS. -/
theorem claim_C7_witness :
    (sceneBuild stageQuadCube).scene = some sceneQuadCube ∧
    sceneQuadCube.instance_descs[1]? = some cubeInstDesc ∧
    sceneQuadCube.tlasRecords[1]? = some
      { transform := float3x4Of idMat4, instance_id := 1, instance_mask := 0xFF,
        instance_contribution_to_hit_group_index := 0, flagsNone := true,
        blas := buildBlas cubeDesc } := by
  refine ⟨sceneQuadCube_eq, by decide, ?_⟩
  obtain ⟨m, b, h1, h2, h3⟩ := claim_C7_tlas_records stageQuadCube sceneQuadCube
    sceneQuadCube_eq 1 cubeInstDesc (by decide)
  have hm : m = idMat4 := by
    have hx : sceneQuadCube.transforms[cubeInstDesc.transform_id]? = some idMat4 := by
      decide
    rw [h1] at hx
    exact Option.some_injective _ hx
  have hb : b = buildBlas cubeDesc := by
    have hx : sceneQuadCube.blases[cubeInstDesc.mesh_id]? = some (buildBlas cubeDesc) := by
      decide
    rw [h2] at hx
    exact Option.some_injective _ hx
  subst hm
  subst hb
  exact h3

/-- C9 counterexample: during construction of the quad-and-cube scene, BLAS
builds are submitted and dependent TLAS instance records are written, yet no
blocking device wait occurs anywhere in between: the event stream of scene
construction contains no wait at all. -/
theorem claim_C9_counterexample :
    Ev.submitBlasBuild 0 ∈ (sceneBuild stageQuadCube).events ∧
    Ev.writeInstance 0 ∈ (sceneBuild stageQuadCube).events ∧
    Ev.submitTlasBuild ∈ (sceneBuild stageQuadCube).events ∧
    Ev.deviceWait ∉ (sceneBuild stageQuadCube).events := by
  refine ⟨by decide, by decide, by decide, by decide⟩

/-- C9 amended: construction of every successfully built scene emits, in
order, one build submission per BLAS, then one record write per instance,
then the TLAS build submission, on a single queue; dependency ordering comes
from submission order alone and no blocking wait is performed. -/
theorem claim_C9_build_ordering (stage : Stage) (sc : Scene)
    (h : (sceneBuild stage).scene = some sc) :
    (sceneBuild stage).events =
      ((List.range sc.blases.length).map Ev.submitBlasBuild ++
        (List.range sc.tlasRecords.length).map Ev.writeInstance) ++
        [Ev.submitTlasBuild] ∧
    Ev.deviceWait ∉ (sceneBuild stage).events := by
  obtain ⟨-, -, -, -, -, -, h7, h8, hm, ht⟩ := sceneBuild_some stage sc h
  have h8b : (writeRecords stage.transforms (sceneBlases stage)
      (sceneInstanceDescs stage) 0).2 = some sc.tlasRecords := h8
  obtain ⟨hev, hlen⟩ := writeRecords_events stage.transforms (sceneBlases stage)
    (sceneInstanceDescs stage) 0 sc.tlasRecords h8b
  have hevents : (sceneBuild stage).events =
      ((List.range (sceneBlases stage).length).map Ev.submitBlasBuild ++
        (sceneWrite stage).1) ++ [Ev.submitTlasBuild] := by
    unfold sceneBuild
    rw [if_neg hm, if_neg ht]
    simp only [h8]
  have hw1 : (sceneWrite stage).1 =
      (List.range sc.tlasRecords.length).map Ev.writeInstance := by
    have : (sceneWrite stage).1 = (writeRecords stage.transforms (sceneBlases stage)
        (sceneInstanceDescs stage) 0).1 := rfl
    rw [this, hev, hlen, List.range_eq_range']
  have heq : (sceneBuild stage).events =
      ((List.range sc.blases.length).map Ev.submitBlasBuild ++
        (List.range sc.tlasRecords.length).map Ev.writeInstance) ++
        [Ev.submitTlasBuild] := by
    rw [hevents, hw1, h7]
  refine ⟨heq, ?_⟩
  rw [heq]
  simp

/-- Witness for C9 at the quad-and-cube scene: the concrete ordered event
stream. -/
theorem claim_C9_witness :
    (sceneBuild stageQuadCube).events =
      [Ev.submitBlasBuild 0, Ev.submitBlasBuild 1, Ev.writeInstance 0,
       Ev.writeInstance 1, Ev.submitTlasBuild] ∧
    Ev.deviceWait ∉ (sceneBuild stageQuadCube).events := by
  obtain ⟨h1, h2⟩ := claim_C9_build_ordering stageQuadCube sceneQuadCube sceneQuadCube_eq
  exact ⟨h1.trans (by decide), h2⟩

/-- The Accumulator recreates its internal texture exactly on a dimension
mismatch. -/
lemma accumulatorExecute_snd (a : Option (Nat × Nat)) (x : Nat × Nat) :
    (accumulatorExecute a x).2 = true ↔ a ≠ some x := by
  unfold accumulatorExecute
  split <;> simp [*]

/-- The loop state after one rendered frame at 100x100 with no camera
motion, starting from the initial state. -/
def loopS1 : LoopState :=
  (loopStep initialState { cameraChanged := false, surface := some (100, 100) }).1

/-- C2 counterexample: in the second rendered frame the surface is 200x200
while all textures are 100x100, so all three intermediate textures are
reallocated and the accumulation texture dimensions mismatch the trace
output, the camera has not moved, and yet the Accumulate call receives
reset = false (the frame counter is 1). -/
theorem claim_C2_counterexample :
    (loopStep loopS1 { cameraChanged := false, surface := some (200, 200) }).2 =
      some { reallocated := true, dims := (200, 200), traceFrame := 1,
             accumInputDims := (200, 200), resetFlag := false,
             accumulatorReallocated := true } ∧
    loopS1.accumulatorDims = some (100, 100) := by
  refine ⟨by decide, by decide⟩

/-- C2 amended: on every rendered frame, the three intermediate textures
are reallocated (all at the surface size) exactly when the output texture
is absent or its size differs from the surface; the reset flag passed to
Accumulate equals (camera changed this frame or the frame counter was
already 0), so a pure dimension change does not force a reset; the
Accumulator reallocates its internal texture exactly when its dimensions
mismatch the accumulate input (the render texture). -/
theorem claim_C2_resize_reset (s : LoopState) (inp : FrameInput) (d : Nat × Nat)
    (rec : FrameRecord) (hs : inp.surface = some d)
    (hrec : (loopStep s inp).2 = some rec) :
    (rec.reallocated = true ↔ s.outputDims ≠ some d) ∧
    (rec.reallocated = true →
      (loopStep s inp).1.outputDims = some d ∧
      (loopStep s inp).1.renderDims = some d ∧
      (loopStep s inp).1.accumTexDims = some d) ∧
    rec.resetFlag = (inp.cameraChanged || decide (s.frame = 0)) ∧
    (rec.accumulatorReallocated = true ↔
      s.accumulatorDims ≠ some rec.accumInputDims) ∧
    (s.renderDims = s.outputDims → rec.accumInputDims = d) := by
  rcases inp with ⟨chg, surf⟩
  obtain rfl : surf = some d := hs
  have hrec2 : rec =
      { reallocated := decide (s.outputDims ≠ some d), dims := d,
        traceFrame := if chg then 0 else s.frame,
        accumInputDims :=
          (if decide (s.outputDims ≠ some d) then some d else s.renderDims).getD d,
        resetFlag := decide ((if chg then 0 else s.frame) = 0),
        accumulatorReallocated :=
          (accumulatorExecute s.accumulatorDims
            ((if decide (s.outputDims ≠ some d) then some d
              else s.renderDims).getD d)).2 } := by
    have := hrec.symm
    simpa [loopStep] using this
  subst hrec2
  refine ⟨by simp, ?_, ?_, ?_, ?_⟩
  · intro hre
    simp only [decide_eq_true_eq] at hre
    simp [loopStep, hre]
  · cases chg <;> simp
  · exact accumulatorExecute_snd _ _
  · intro hrd
    by_cases ho : s.outputDims = some d
    · rw [hrd, ho]
      simp
    · simp [ho]

/-- The frame record of the resize frame used as the C2 witness. -/
def loopRec2 : FrameRecord :=
  { reallocated := true, dims := (200, 200), traceFrame := 1,
    accumInputDims := (200, 200), resetFlag := false,
    accumulatorReallocated := true }

/-- Witness for C2 amended at the concrete resize frame. -/
theorem claim_C2_witness :
    (loopStep loopS1 { cameraChanged := false, surface := some (200, 200) }).2 =
      some loopRec2 ∧
    (loopRec2.reallocated = true ↔ loopS1.outputDims ≠ some (200, 200)) ∧
    loopRec2.resetFlag = (false || decide (loopS1.frame = 0)) ∧
    (loopRec2.accumulatorReallocated = true ↔
      loopS1.accumulatorDims ≠ some loopRec2.accumInputDims) := by
  have h := claim_C2_resize_reset loopS1
    { cameraChanged := false, surface := some (200, 200) } (200, 200) loopRec2
    rfl (by decide)
  exact ⟨by decide, h.1, h.2.2.1, h.2.2.2.1⟩

/-- C6: in every loop iteration in which the camera controller reports a
pose change, the frame counter is set to 0, and if the frame renders, the
trace is seeded with frame 0, Accumulate receives reset = true, and the
counter then advances to 1; in every iteration without a pose change the
rendered frame uses the current counter and the counter increments by one
(and an unrendered iteration leaves it unchanged). -/
theorem claim_C6_camera_reset (s : LoopState) (inp : FrameInput) :
    (inp.cameraChanged = true →
      ((loopStep s inp).2 = none → (loopStep s inp).1.frame = 0) ∧
      ∀ rec ∈ (loopStep s inp).2,
        rec.traceFrame = 0 ∧ rec.resetFlag = true ∧ (loopStep s inp).1.frame = 1) ∧
    (inp.cameraChanged = false →
      ((loopStep s inp).2 = none → (loopStep s inp).1.frame = s.frame) ∧
      ∀ rec ∈ (loopStep s inp).2,
        rec.traceFrame = s.frame ∧ (loopStep s inp).1.frame = s.frame + 1) := by
  rcases inp with ⟨chg, surf⟩
  rcases surf with _ | d <;> rcases chg <;> simp [loopStep]

/-- The loop state used for the C6 witness: frame counter 7, all textures
allocated at 5x5. -/
def loopStateSeven : LoopState :=
  { frame := 7, outputDims := some (5, 5), renderDims := some (5, 5),
    accumTexDims := some (5, 5), accumulatorDims := some (5, 5) }

/-- Witness for C6: a camera change at frame counter 7 renders with trace
frame 0 and reset = true, and the counter becomes 1. -/
theorem claim_C6_witness :
    ((loopStep loopStateSeven { cameraChanged := true, surface := some (5, 5) }).2.map
      fun r => (r.traceFrame, r.resetFlag)) = some (0, true) ∧
    (loopStep loopStateSeven { cameraChanged := true, surface := some (5, 5) }).1.frame = 1 := by
  have h := (claim_C6_camera_reset loopStateSeven
    { cameraChanged := true, surface := some (5, 5) }).1 rfl
  have hrec : (loopStep loopStateSeven
      { cameraChanged := true, surface := some (5, 5) }).2 =
    some { reallocated := false, dims := (5, 5), traceFrame := 0,
           accumInputDims := (5, 5), resetFlag := true,
           accumulatorReallocated := false } := by decide
  have h2 := h.2 _ (by rw [hrec]; exact rfl)
  rw [hrec]
  exact ⟨by simp [h2.1, h2.2.1], h2.2.2⟩

/-- C10: every call of PathTracer.execute with output extent w x h mutates
the shared Scene camera before dispatching: it writes width w and height h,
recomputes the aspect ratio and the derived basis (fwd, right, up, image_u,
image_v, image_w), and the dispatch is issued over w x h with the mutated
camera bound; at a concrete input the camera after the call differs from
the camera before, so the trace pass is not read-only on scene state. -/
theorem claim_C10_camera_mutation (ops : MathOps) (cam : Camera) (w h frame : Nat) :
    (pathTracerExecute ops cam w h frame).1 =
      Camera.recompute ops { cam with width := w, height := h } ∧
    (pathTracerExecute ops cam w h frame).1.width = w ∧
    (pathTracerExecute ops cam w h frame).1.height = h ∧
    (pathTracerExecute ops cam w h frame).1.aspect = (w : ℚ) / (h : ℚ) ∧
    (pathTracerExecute ops cam w h frame).1.fwd =
      vnormalize ops (vsub cam.target cam.position) ∧
    (pathTracerExecute ops cam w h frame).1.image_w =
      (pathTracerExecute ops cam w h frame).1.fwd ∧
    (pathTracerExecute ops cam w h frame).2.boundCamera =
      (pathTracerExecute ops cam w h frame).1 ∧
    (pathTracerExecute ops cam w h frame).2.boundFrame = frame ∧
    (pathTracerExecute ops cam w h frame).2.extentW = w ∧
    (pathTracerExecute ops cam w h frame).2.extentH = h ∧
    decide ((pathTracerExecute zeroOps initCamera 1 1 0).1 = initCamera) = false :=
  ⟨rfl, rfl, rfl, rfl, rfl, rfl, rfl, rfl, rfl, rfl, by decide⟩

end PathTracerSpec
